import Mathlib

/-
Verification development for the `transactional` Go package (caarlos0/transactional).

The package wraps units of work (plain functions or HTTP handlers) in a
database transaction: it begins a transaction, runs the supplied function
against it, and commits on success or rolls back on failure, with a shared
`rollback` helper classifying rollback-path errors and the HTTP wrapper
`Transactional.Wrap` reusing an already-active transaction carried in the
request context.

Embedding conventions:
- Go error values are modelled by the inductive `GoErr`.  `GoErr.wrapf m e`
  models `fmt.Errorf(m ++ ": %w", e)` (the wrapped error is reachable by
  `errors.Is`); `GoErr.httpWrap s e` models `httperr.Wrap(e, s)` (which also
  exposes `e` through `Unwrap`); `GoErr.errTxDone` and `GoErr.errNoRows`
  model the sentinel errors `sql.ErrTxDone` and `sql.ErrNoRows`;
  `GoErr.base m` models any other leaf error.
- `errorsIs e t` models Go's `errors.Is(e, t)` for sentinel targets: it
  compares for equality and walks the `%w` / `Unwrap` chain.
- The opaque SQL driver is modelled by passing the outcome of each driver
  call (`BeginTxx`, `Commit`, `Rollback`) as an explicit argument of type
  `Option GoErr` (`none` = the call succeeded) in the pure models, and by a
  small transaction-state machine in the trace models further below.
-/

/-- Model of a Go error value as it appears in this package. -/
inductive GoErr where
  | errTxDone : GoErr
  | errNoRows : GoErr
  | base : String → GoErr
  | wrapf : String → GoErr → GoErr
  | httpWrap : Nat → GoErr → GoErr
  deriving DecidableEq, Repr

/-- Model of `errors.Is(e, target)`: equality or a match along the unwrap
chain (`fmt.Errorf`'s `%w` argument, `httperr.Wrap`'s wrapped error). -/
def errorsIs (e target : GoErr) : Bool :=
  e == target ||
    match e with
    | .wrapf _ inner => errorsIs inner target
    | .httpWrap _ inner => errorsIs inner target
    | _ => false

/-- Model of the `Error()` string of a `GoErr`.  Only its use inside
`rollback`'s `fmt.Errorf("failed to rollback: %s: %w", err.Error(), rerr)`
matters: the original error contributes its message text only. -/
def errString : GoErr → String
  | .errTxDone => "sql: transaction has already been committed or rolled back"
  | .errNoRows => "sql: no rows in result set"
  | .base m => m
  | .wrapf m inner => m ++ ": " ++ errString inner
  | .httpWrap _ inner => errString inner

/-- Embedding of the package-level `rollback(tx, err)` helper
(src/typed.go lines 121-133).  `rollbackRes` is the outcome of the driver
call `tx.Rollback()` (`none` = success).  The source:

  if rerr := tx.Rollback(); rerr != nil \x7b
    if errors.Is(rerr, sql.ErrTxDone) \x7b return err \x7d
    return fmt.Errorf("failed to rollback: %s: %w", err.Error(), rerr)
  \x7d
  if errors.Is(err, sql.ErrNoRows) \x7b
    return httperr.Wrap(err, http.StatusNotFound)
  \x7d
  return err
-/
def rollback (rollbackRes : Option GoErr) (err : GoErr) : GoErr :=
  match rollbackRes with
  | some rerr =>
    if errorsIs rerr .errTxDone then err
    else .wrapf ("failed to rollback: " ++ errString err) rerr
  | none =>
    if errorsIs err .errNoRows then .httpWrap 404 err
    else err

namespace Typed

/-- Embedding of `Typed[T].WrapFn(ctx, fn)` (src/typed.go lines 23-47).
The unit of work's outcome is the pair `fn : T × Option GoErr`; `beginRes`,
`commitRes` and `rollbackRes` are the outcomes of the driver calls
`BeginTxx`, `tx.Commit()` and `tx.Rollback()`.  `default` models Go's
zero value `var r T`. -/
def WrapFn {T : Type} [Inhabited T] (beginRes : Option GoErr)
    (fn : T × Option GoErr) (commitRes rollbackRes : Option GoErr) :
    T × Option GoErr :=
  match beginRes with
  | some err => (default, some (.wrapf "failed to begin transaction" err))
  | none =>
    match fn with
    | (r, some err) => (r, some (rollback rollbackRes err))
    | (r, none) =>
      match commitRes with
      | some cerr =>
        if errorsIs cerr .errTxDone then (r, none)
        else (r, some (.wrapf "failed to commit transaction" cerr))
      | none => (r, none)

end Typed

namespace Transactional

/-- Embedding of `Transactional.WrapFn(ctx, fn)` (src/typed.go lines
98-117), the error-only variant.  `fnErr` is the unit of work's returned
error; the other arguments are the driver call outcomes as in
`Typed.WrapFn`. -/
def WrapFn (beginRes fnErr commitRes rollbackRes : Option GoErr) :
    Option GoErr :=
  match beginRes with
  | some err => some (.wrapf "failed to begin transaction" err)
  | none =>
    match fnErr with
    | some err => some (rollback rollbackRes err)
    | none =>
      match commitRes with
      | some cerr =>
        if errorsIs cerr .errTxDone then none
        else some (.wrapf "failed to commit transaction" cerr)
      | none => none

end Transactional

/-- C1: if the unit of work returns `(result, nil)` and the commit call
returns nil, `Typed.WrapFn` returns that result and a nil error. -/
theorem typed_wrapFn_success {T : Type} [Inhabited T] (r : T)
    (rollbackRes : Option GoErr) :
    Typed.WrapFn none (r, none) none rollbackRes = (r, none) := rfl

/-- C2 counterexample: the claim says a failing unit of work makes
`Typed.WrapFn` return the zero value of `T`, but the source returns the
value the unit of work produced alongside its error (`r, err = fn(tx);
return r, rollback(tx, err)`).  At `T = Nat`, `fn = (5, some (base
"boom"))` with a successful rollback, the returned value is `5`, not the
zero value `0`. -/
theorem typed_wrapFn_failure_zero_cex :
    Typed.WrapFn none ((5 : Nat), some (.base "boom")) none none
        = (5, some (.base "boom"))
      ∧ (5 : Nat) ≠ (default : Nat) := by
  constructor
  · rfl
  · decide

/-- C2 amended: when the unit of work returns a non-nil error,
`Typed.WrapFn` returns the Rollback Protocol's outcome as the final error
together with the result value the unit of work returned alongside its
error (not the zero value of `T`). -/
theorem typed_wrapFn_failure {T : Type} [Inhabited T] (r : T) (err : GoErr)
    (commitRes rollbackRes : Option GoErr) :
    Typed.WrapFn none (r, some err) commitRes rollbackRes
      = (r, some (rollback rollbackRes err)) := rfl

/-- C3 counterexample: the claim says a successful rollback makes the
protocol return the original triggering error unchanged, for every
triggering error.  At triggering error `sql.ErrNoRows` the source instead
returns `httperr.Wrap(err, http.StatusNotFound)`, a different error
value. -/
theorem rollback_success_noRows_cex :
    rollback none .errNoRows = .httpWrap 404 .errNoRows
      ∧ GoErr.httpWrap 404 .errNoRows ≠ .errNoRows := by
  constructor
  · rfl
  · decide

/-- C3 amended: when the rollback call succeeds and the triggering error
does not match `sql.ErrNoRows`, the protocol returns the original
triggering error unchanged.  (A no-rows error is instead returned wrapped
as an HTTP 404 error, with the original still reachable by
`errors.Is`.) -/
theorem rollback_success_returns_original (err : GoErr)
    (h : errorsIs err .errNoRows = false) :
    rollback none err = err := by
  simp [rollback, h]

/-- Witness for `rollback_success_returns_original` at `err = base "boom"`. -/
theorem rollback_success_returns_original_wit :
    rollback none (.base "boom") = .base "boom" :=
  rollback_success_returns_original (.base "boom") (by decide)

/-- C5 counterexample: when rollback fails with a non-already-finished
error, the source builds `fmt.Errorf("failed to rollback: %s: %w",
err.Error(), rerr)` — the original error contributes only its message text
(`%s`), and only the rollback failure is wrapped (`%w`).  With original
error `sql.ErrNoRows` and rollback failure `base "io"`, the returned error
no longer matches `sql.ErrNoRows` under `errors.Is`: the original
condition is not identifiable by error testing, contrary to the claim. -/
theorem rollback_failure_original_lost_cex :
    errorsIs (rollback (some (.base "io")) .errNoRows) .errNoRows = false := by
  decide

/-- C5 amended: when the rollback call fails for a reason other than
"transaction already finished", the protocol returns a new error carrying
the original error's message as text and wrapping (in `errors.Is`-testable
fashion) only the rollback failure: testing the returned error for the
no-rows or already-finished condition sees exactly the rollback failure's
chain, not the original error's. -/
theorem rollback_failure_wraps_rerr_only (err rerr : GoErr)
    (h : errorsIs rerr .errTxDone = false) :
    rollback (some rerr) err
        = .wrapf ("failed to rollback: " ++ errString err) rerr
      ∧ errorsIs (rollback (some rerr) err) .errNoRows
          = errorsIs rerr .errNoRows
      ∧ errorsIs (rollback (some rerr) err) .errTxDone
          = errorsIs rerr .errTxDone := by
  refine ⟨by simp [rollback, h], ?_, ?_⟩ <;>
    simp [rollback, h, errorsIs]

/-- Witness for `rollback_failure_wraps_rerr_only` at original error
`sql.ErrNoRows` and rollback failure `base "io"`. -/
theorem rollback_failure_wraps_rerr_only_wit :
    rollback (some (.base "io")) .errNoRows
        = .wrapf ("failed to rollback: " ++ errString .errNoRows) (.base "io")
      ∧ errorsIs (rollback (some (.base "io")) .errNoRows) .errNoRows
          = errorsIs (.base "io") .errNoRows
      ∧ errorsIs (rollback (some (.base "io")) .errNoRows) .errTxDone
          = errorsIs (.base "io") .errTxDone :=
  rollback_failure_wraps_rerr_only .errNoRows (.base "io") (by decide)

/-- C6: when the rollback call fails with the "transaction already
finished" condition, the protocol returns the original triggering error
unchanged, never combined with the rollback failure. -/
theorem rollback_txDone_returns_original (err rerr : GoErr)
    (h : errorsIs rerr .errTxDone = true) :
    rollback (some rerr) err = err := by
  simp [rollback, h]

/-- Witness for `rollback_txDone_returns_original` at `rerr = sql.ErrTxDone`. -/
theorem rollback_txDone_returns_original_wit :
    rollback (some .errTxDone) (.base "boom") = .base "boom" :=
  rollback_txDone_returns_original (.base "boom") .errTxDone (by decide)

/-- C7: when the unit of work succeeds and the commit call fails with the
"transaction already finished" condition, both executors return a nil
error, and the typed variant returns the result the unit of work
produced. -/
theorem wrapFn_commit_txDone (cerr : GoErr)
    (h : errorsIs cerr .errTxDone = true) :
    (∀ (r : Nat) (rollbackRes : Option GoErr),
        Typed.WrapFn none (r, none) (some cerr) rollbackRes = (r, none))
      ∧ ∀ rollbackRes : Option GoErr,
          Transactional.WrapFn none none (some cerr) rollbackRes = none := by
  constructor
  · intro r rollbackRes
    simp [Typed.WrapFn, h]
  · intro rollbackRes
    simp [Transactional.WrapFn, h]

/-- Witness for `wrapFn_commit_txDone` at `cerr = sql.ErrTxDone`, `r = 7`. -/
theorem wrapFn_commit_txDone_wit :
    Typed.WrapFn none ((7 : Nat), none) (some .errTxDone) none = (7, none)
      ∧ Transactional.WrapFn none none (some .errTxDone) none = none :=
  ⟨(wrapFn_commit_txDone .errTxDone (by decide)).1 7 none,
   (wrapFn_commit_txDone .errTxDone (by decide)).2 none⟩

/-- C4 counterexample: the claim says the no-rows to not-found translation
happens at the HTTP boundary only and that the function-only variants
return a no-rows error unchanged.  But the translation lives in the shared
`rollback` helper, which `Transactional.WrapFn` calls too: a unit of work
failing with `sql.ErrNoRows` whose rollback succeeds makes
`Transactional.WrapFn` return the 404-wrapped error, not the error
unchanged. -/
theorem wrapFn_noRows_remap_cex :
    Transactional.WrapFn none (some .errNoRows) none none
        = some (.httpWrap 404 .errNoRows)
      ∧ some (GoErr.httpWrap 404 .errNoRows) ≠ some GoErr.errNoRows := by
  constructor
  · rfl
  · decide

/-- C4 amended: the no-rows to not-found translation is performed inside
the shared Rollback Protocol, so it applies to every entry point, the
function-only variants included: whenever the unit of work fails with an
error matching `sql.ErrNoRows` and the rollback call succeeds, both
`Transactional.WrapFn` and `Typed.WrapFn` return the error wrapped as an
HTTP 404 not-found failure (with the original still reachable by
`errors.Is`), exactly as the HTTP wrapper does. -/
theorem noRows_remap_everywhere (e : GoErr)
    (h : errorsIs e .errNoRows = true) :
    (∀ commitRes : Option GoErr,
        Transactional.WrapFn none (some e) commitRes none
          = some (.httpWrap 404 e))
      ∧ (∀ (r : Nat) (commitRes : Option GoErr),
          Typed.WrapFn none (r, some e) commitRes none
            = (r, some (.httpWrap 404 e)))
      ∧ errorsIs (.httpWrap 404 e) .errNoRows = true := by
  refine ⟨fun commitRes => ?_, fun r commitRes => ?_, ?_⟩
  · simp [Transactional.WrapFn, rollback, h]
  · simp [Typed.WrapFn, rollback, h]
  · simp [errorsIs, h]

/-- Witness for `noRows_remap_everywhere` at `e = sql.ErrNoRows`, `r = 1`. -/
theorem noRows_remap_everywhere_wit :
    Transactional.WrapFn none (some .errNoRows) none none
        = some (.httpWrap 404 .errNoRows)
      ∧ Typed.WrapFn none ((1 : Nat), some .errNoRows) none none
          = (1, some (.httpWrap 404 .errNoRows)) :=
  ⟨(noRows_remap_everywhere .errNoRows (by decide)).1 none,
   (noRows_remap_everywhere .errNoRows (by decide)).2.1 1 none⟩

/-
Trace model.  To settle the claims about transaction reuse (exactly one
begin per call chain, who issues the rollback in the nested scenario) the
driver calls are given their `database/sql` state semantics: a transaction
handle is terminated at most once; committing or rolling back an already
terminated handle returns `sql.ErrTxDone`.  The state `St` records, besides
which handles are terminated, the full trace of driver calls (how many
`BeginTxx` calls, and the order of `Rollback` / `Commit` calls with their
handles), so the claims about call counts become statements about `St`.
Handles are numbered: `BeginTxx` always succeeds and hands out `nextTx`.
-/

/-- Driver-call trace and transaction-handle state. -/
structure St where
  begun : Nat
  nextTx : Nat
  finished : List Nat
  rollbackCalls : List Nat
  commitCalls : List Nat
  deriving DecidableEq, Repr

/-- The state before any driver call. -/
def St.start : St := ⟨0, 0, [], [], []⟩

/-- Driver semantics of `tx.Rollback()`: fails with `sql.ErrTxDone` on a
terminated handle, otherwise succeeds and terminates the handle.  The call
is recorded in the trace either way. -/
def doRollbackCall (txid : Nat) (s : St) : Option GoErr × St :=
  if txid ∈ s.finished then
    (some .errTxDone, { s with rollbackCalls := s.rollbackCalls ++ [txid] })
  else
    (none, { s with rollbackCalls := s.rollbackCalls ++ [txid],
                    finished := txid :: s.finished })

/-- Driver semantics of `tx.Commit()`: fails with `sql.ErrTxDone` on a
terminated handle, otherwise succeeds and terminates the handle. -/
def doCommitCall (txid : Nat) (s : St) : Option GoErr × St :=
  if txid ∈ s.finished then
    (some .errTxDone, { s with commitCalls := s.commitCalls ++ [txid] })
  else
    (none, { s with commitCalls := s.commitCalls ++ [txid],
                    finished := txid :: s.finished })

/-- The `rollback` helper run against the stateful driver: issue the
`Rollback()` call on the handle, then classify its outcome exactly as
`rollback` does. -/
def rollbackSt (txid : Nat) (err : GoErr) (s : St) : GoErr × St :=
  match doRollbackCall txid s with
  | (rres, s') => (rollback rres err, s')

/-- Syntax of a handler body, as far as the mediator can observe it: it
either returns an error outcome directly (`ret`), or first routes a nested
handler through `Transactional.Wrap` on the request context it received.
`wrapThen` discards the nested mediator's outcome (in the source it goes to
the `httperr` error renderer, not to the caller) and continues; `wrapProp`
models an application handler that surfaces the nested mediator's rendered
error as its own return value. -/
inductive HProg where
  | ret (e : Option GoErr)
  | wrapThen (inner rest : HProg)
  | wrapProp (inner : HProg)

namespace Trace

/-- Execution of a handler body `p` running with transaction handle `txid`
attached to its request context.  A nested `Transactional.Wrap` invocation
always finds `txid` under `txKey` in the context, so its reuse branch is
inlined here (src/typed.go lines 81-88): run the nested handler with the
same handle, and on failure invoke the Rollback Protocol on that handle.
`Trace.runHandler_wrapProp` below certifies that this inlining agrees with
`Trace.Wrap` applied to a handle-carrying context. -/
def runHandler (txid : Nat) (p : HProg) (s : St) : Option GoErr × St :=
  match p with
  | .ret e => (e, s)
  | .wrapThen inner rest =>
    match runHandler txid inner s with
    | (some err, s') =>
      match rollbackSt txid err s' with
      | (_, s'') => runHandler txid rest s''
    | (none, s') => runHandler txid rest s'
  | .wrapProp inner =>
    match runHandler txid inner s with
    | (some err, s') =>
      match rollbackSt txid err s' with
      | (e, s'') => (some e, s'')
    | (none, s') => (none, s')

/-- Embedding of `Transactional.WrapFn` run against the stateful driver
(src/typed.go lines 98-117), with the unit of work being the handler
closure built in `Wrap`'s fresh path: derive a context carrying the new
handle and run the handler with it.  `ctx` is the incoming request
context, modelled as the handle it carries under `txKey`, if any; the body
never reads it — `WrapFn` passes it only to `BeginTxx`, and the closure's
`context.WithValue(ctx, txKey\x7b\x7d, tx)` overwrites any carried handle. -/
def WrapFn (_ctx : Option Nat) (p : HProg) (s : St) : Option GoErr × St :=
  match s with
  | ⟨begun, nextTx, finished, rollbackCalls, commitCalls⟩ =>
    let txid := nextTx
    let s1 : St := ⟨begun + 1, nextTx + 1, finished, rollbackCalls, commitCalls⟩
    match runHandler txid p s1 with
    | (some err, s2) =>
      match rollbackSt txid err s2 with
      | (e, s3) => (some e, s3)
    | (none, s2) =>
      match doCommitCall txid s2 with
      | (some cerr, s3) =>
        if errorsIs cerr .errTxDone then (none, s3)
        else (some (.wrapf "failed to commit transaction" cerr), s3)
      | (none, s3) => (none, s3)

/-- Embedding of the handler produced by `Transactional.Wrap(h, eh)`
(src/typed.go lines 78-95), run against the stateful driver.  `ctx` is the
handle carried by the request context under `txKey`, if any: when present,
run the handler directly with that handle and invoke the Rollback Protocol
on it if the handler fails (reuse branch); when absent, delegate to
`Trace.WrapFn` (fresh branch). -/
def Wrap (ctx : Option Nat) (p : HProg) (s : St) : Option GoErr × St :=
  match ctx with
  | some txid =>
    match runHandler txid p s with
    | (some err, s') =>
      match rollbackSt txid err s' with
      | (e, s'') => (some e, s'')
    | (none, s') => (none, s')
  | none => WrapFn ctx p s

/-- The inlining inside `Trace.runHandler` agrees with `Trace.Wrap`: a
nested `wrapProp` node is exactly `Trace.Wrap` run on a context carrying
the current handle. -/
theorem runHandler_wrapProp (txid : Nat) (inner : HProg) (s : St) :
    runHandler txid (.wrapProp inner) s = Wrap (some txid) inner s := rfl

/-- Likewise for a `wrapThen` node: it runs `Trace.Wrap` on a context
carrying the current handle, discards its outcome, and continues. -/
theorem runHandler_wrapThen (txid : Nat) (inner rest : HProg) (s : St) :
    runHandler txid (.wrapThen inner rest) s
      = runHandler txid rest (Wrap (some txid) inner s).2 := by
  show (match runHandler txid inner s with
    | (some err, s') =>
      match rollbackSt txid err s' with
      | (_, s'') => runHandler txid rest s''
    | (none, s') => runHandler txid rest s') = _
  rcases h : runHandler txid inner s with ⟨e?, s'⟩
  cases e? with
  | none => simp [Wrap, h]
  | some err =>
    rcases hr : rollbackSt txid err s' with ⟨e, s''⟩
    simp [Wrap, h, hr]

end Trace

/-- The Rollback Protocol issues no `BeginTxx` call: it preserves the
begin count. -/
theorem rollbackSt_begun (txid : Nat) (err : GoErr) (s : St) :
    ((rollbackSt txid err s).2).begun = s.begun := by
  by_cases h : txid ∈ s.finished <;> simp [rollbackSt, doRollbackCall, h]

/-- A `Commit()` call issues no `BeginTxx` call: it preserves the begin
count. -/
theorem doCommitCall_begun (txid : Nat) (s : St) :
    ((doCommitCall txid s).2).begun = s.begun := by
  by_cases h : txid ∈ s.finished <;> simp [doCommitCall, h]

/-- A handler body running with a handle-carrying context never calls
`BeginTxx`, at any nesting depth: every nested `Transactional.Wrap` inside
it takes the reuse branch. -/
theorem runHandler_begun (p : HProg) : ∀ (txid : Nat) (s : St),
    ((Trace.runHandler txid p s).2).begun = s.begun := by
  induction p with
  | ret e => intro txid s; rfl
  | wrapThen inner rest ih1 ih2 =>
    intro txid s
    have h1 := ih1 txid s
    rcases h : Trace.runHandler txid inner s with ⟨e?, s'⟩
    rw [h] at h1
    cases e? with
    | none =>
      have : Trace.runHandler txid (.wrapThen inner rest) s
          = Trace.runHandler txid rest s' := by
        simp [Trace.runHandler, h]
      rw [this, ih2 txid s', h1]
    | some err =>
      rcases hr : rollbackSt txid err s' with ⟨e, s''⟩
      have h2 := rollbackSt_begun txid err s'
      rw [hr] at h2
      have : Trace.runHandler txid (.wrapThen inner rest) s
          = Trace.runHandler txid rest s'' := by
        simp [Trace.runHandler, h, hr]
      rw [this, ih2 txid s'', h2, h1]
  | wrapProp inner ih =>
    intro txid s
    have h1 := ih txid s
    rcases h : Trace.runHandler txid inner s with ⟨e?, s'⟩
    rw [h] at h1
    cases e? with
    | none =>
      have : Trace.runHandler txid (.wrapProp inner) s = (none, s') := by
        simp [Trace.runHandler, h]
      rw [this, h1]
    | some err =>
      rcases hr : rollbackSt txid err s' with ⟨e, s''⟩
      have h2 := rollbackSt_begun txid err s'
      rw [hr] at h2
      have : Trace.runHandler txid (.wrapProp inner) s = (some e, s'') := by
        simp [Trace.runHandler, h, hr]
      rw [this]
      rw [h2, h1]

/-- The function-only entry point issues exactly one `BeginTxx` call per
invocation, whatever the context carries and however deeply the handler
nests mediator invocations. -/
theorem wrapFn_trace_begun (ctx : Option Nat) (p : HProg) (s : St) :
    ((Trace.WrapFn ctx p s).2).begun = s.begun + 1 := by
  rcases s with ⟨b, nt, f, rc, cc⟩
  have h1 := runHandler_begun p nt ⟨b + 1, nt + 1, f, rc, cc⟩
  rcases h : Trace.runHandler nt p ⟨b + 1, nt + 1, f, rc, cc⟩ with ⟨e?, s2⟩
  rw [h] at h1
  cases e? with
  | some err =>
    rcases hr : rollbackSt nt err s2 with ⟨e, s3⟩
    have h2 := rollbackSt_begun nt err s2
    rw [hr] at h2
    have : Trace.WrapFn ctx p ⟨b, nt, f, rc, cc⟩ = (some e, s3) := by
      simp [Trace.WrapFn, h, hr]
    rw [this]
    rw [h2, h1]
  | none =>
    rcases hc : doCommitCall nt s2 with ⟨c?, s3⟩
    have h2 := doCommitCall_begun nt s2
    rw [hc] at h2
    cases c? with
    | none =>
      have : Trace.WrapFn ctx p ⟨b, nt, f, rc, cc⟩ = (none, s3) := by
        simp [Trace.WrapFn, h, hc]
      rw [this, h2, h1]
    | some cerr =>
      by_cases hd : errorsIs cerr .errTxDone = true
      · have : Trace.WrapFn ctx p ⟨b, nt, f, rc, cc⟩ = (none, s3) := by
          simp [Trace.WrapFn, h, hc, hd]
        rw [this, h2, h1]
      · have : Trace.WrapFn ctx p ⟨b, nt, f, rc, cc⟩
            = (some (.wrapf "failed to commit transaction" cerr), s3) := by
          simp [Trace.WrapFn, h, hc, hd]
        rw [this, h2, h1]

/-- C8: a mediator invocation whose request context already carries a
transaction handle performs no `BeginTxx` call at all — every nested
invocation reuses the carried handle — while a chain entered with no
carried handle performs exactly one `BeginTxx` call across the whole
nested chain, whatever the handler's nesting structure. -/
theorem wrap_single_begin :
    (∀ (txid : Nat) (p : HProg) (s : St),
        ((Trace.Wrap (some txid) p s).2).begun = s.begun)
      ∧ ∀ (p : HProg) (s : St),
          ((Trace.Wrap none p s).2).begun = s.begun + 1 := by
  constructor
  · intro txid p s
    have : Trace.Wrap (some txid) p s
        = Trace.runHandler txid (.wrapProp p) s := rfl
    rw [this, runHandler_begun]
  · intro p s
    have : Trace.Wrap none p s = Trace.WrapFn none p s := rfl
    rw [this, wrapFn_trace_begun]

/-- C9 counterexample: the claim says the inner (reusing) call itself
never issues a rollback on the handle.  But the reuse branch of
`Transactional.Wrap` (src/typed.go lines 84-86) returns `rollback(tx, err)`
when the handler fails: an inner invocation that reuses handle 0 and whose
handler fails issues exactly one `Rollback()` call, on handle 0, itself. -/
theorem wrap_inner_rollback_cex :
    Trace.Wrap (some 0) (.ret (some (.base "boom"))) ⟨1, 1, [], [], []⟩
      = (some (.base "boom"), ⟨1, 1, [0], [0], []⟩) := by
  decide

/-- C9 amended: in the nested scenario it is the inner (reusing)
invocation that performs the effective rollback on the shared handle and
propagates the original error; when the outer invocation then sees the
propagated error, its own Rollback Protocol call finds the handle already
finished (`sql.ErrTxDone`), so the outer returns the original error
unchanged and the handle is terminated exactly once.  Concretely: the
inner reuse-branch run alone issues the one successful rollback (first
conjunct), and the full nested chain begun with an empty context performs
one begin and two `Rollback()` calls — the inner's, which terminates the
handle, then the outer's, which fails benignly — and still returns the
original error (second conjunct). -/
theorem wrap_nested_failure_protocol (e : GoErr)
    (h : errorsIs e .errNoRows = false) :
    Trace.Wrap (some 0) (.ret (some e)) ⟨1, 1, [], [], []⟩
        = (some e, ⟨1, 1, [0], [0], []⟩)
      ∧ Trace.Wrap none (.wrapProp (.ret (some e))) St.start
          = (some e, ⟨1, 1, [0], [0, 0], []⟩) := by
  constructor
  · simp [Trace.Wrap, Trace.runHandler, rollbackSt, doRollbackCall,
      rollback, h]
  · simp [Trace.Wrap, Trace.WrapFn, Trace.runHandler, rollbackSt,
      doRollbackCall, rollback, St.start, h, errorsIs]

/-- Witness for `wrap_nested_failure_protocol` at `e = base "boom"`. -/
theorem wrap_nested_failure_protocol_wit :
    Trace.Wrap (some 0) (.ret (some (GoErr.base "fail"))) ⟨1, 1, [], [], []⟩
        = (some (.base "fail"), ⟨1, 1, [0], [0], []⟩)
      ∧ Trace.Wrap none (.wrapProp (.ret (some (GoErr.base "fail")))) St.start
          = (some (.base "fail"), ⟨1, 1, [0], [0, 0], []⟩) :=
  wrap_nested_failure_protocol (.base "fail") (by decide)

/-- C10: the function-only entry point never consults the context for an
already-active handle: its outcome is the same whether or not the context
carries one (the body reads `ctx` only to hand it to `BeginTxx`, and the
handler closure overwrites any carried handle under `txKey`), and even on
a handle-carrying context it begins exactly one fresh transaction. -/
theorem wrapFn_ignores_carried_handle :
    ∀ (txid : Nat) (p : HProg) (s : St),
      Trace.WrapFn (some txid) p s = Trace.WrapFn none p s
        ∧ ((Trace.WrapFn (some txid) p s).2).begun = s.begun + 1 :=
  fun txid p s => ⟨rfl, wrapFn_trace_begun (some txid) p s⟩
